import Mathlib

/-!
Shallow embedding of the validation-and-transform core of the
`tyree88/prefect-flows` repository.

The repository's two ETL flows
(`src/flows/etl-s3-upload-pipeline/simple-example-etl.py` and
`src/flows/etl-cicd-pipeline/filled-example-etl.py`) share one piece of
logic: a pydantic schema `GithubRepoSchema` over five fields of a flattened
GitHub JSON payload, a business rule on `stargazers_count`, a cleaning
projection of the five fields, and an aggregation computing
`total_engagement`, a copy of the three counts, and
`engagement_ratio = round(stars / (watchers + 1), 2)`.

Modelling conventions:
* a flattened JSON object is an association list of string keys to scalar
  values (`JsonObj`); extra keys are ignored by the schema, exactly as
  pydantic ignores extra keys;
* pydantic's type check of a field is modelled exactly on the declared JSON
  type (`str` fields need a JSON string, `int` fields a JSON integer; a JSON
  boolean is rejected for an `int` field, as pydantic rejects `bool` there).
  The library's lax coercion of numeric strings is outside the model: the
  GitHub payload carries native JSON values;
* a Python exception that a function re-raises (KeyError in `clean_data`,
  ZeroDivisionError or TypeError in `perform_aggregation`) is modelled by
  `Option`/`Except` failure values;
* Python `round(x, 2)` is modelled by exact rational arithmetic
  (`round2`); no input of the claims sits on a rounding tie;
* the wall-clock `timestamp` field of the aggregate and all I/O (HTTP
  fetch, file handoff, S3 upload, email) are outside the core and are not
  modelled; the flow-level file handoff is modelled as direct value
  passing, which is what the straight-line `main` flow does with the paths
  it returns.
-/

/-- A scalar JSON value as it appears in the flattened GitHub payload. -/
inductive JsonVal where
  | str (s : String)
  | int (n : Int)
  | bool (b : Bool)
  | null
deriving DecidableEq, Repr

/-- A flattened JSON object: a Python dict from string keys to scalars. -/
abbrev JsonObj := List (String × JsonVal)

/-- Python dict lookup `data[k]`: the first binding of `k`, if any. -/
def lookupKey (o : JsonObj) (k : String) : Option JsonVal :=
  match o with
  | [] => none
  | (k2, v) :: rest => if k2 = k then some v else lookupKey rest k

/-- One pydantic field error: the field it names and the reason. -/
structure SchemaError where
  field : String
  reason : String
deriving DecidableEq, Repr

/-- Pydantic check of a required `str` field: the key must be present and
carry a JSON string. -/
def checkStr (o : JsonObj) (k : String) : Except SchemaError String :=
  match lookupKey o k with
  | none => .error ⟨k, "Field required"⟩
  | some (.str s) => .ok s
  | some _ => .error ⟨k, "Input should be a valid string"⟩

/-- Pydantic check of a required `int` field: the key must be present and
carry a JSON integer (a boolean is rejected). -/
def checkInt (o : JsonObj) (k : String) : Except SchemaError Int :=
  match lookupKey o k with
  | none => .error ⟨k, "Field required"⟩
  | some (.int n) => .ok n
  | some _ => .error ⟨k, "Input should be a valid integer"⟩

/-- The validated entity of both flows: the pydantic model
`GithubRepoSchema` with its five required fields. The counts are Python
`int`, i.e. unbounded signed integers: the source declares no lower
bound. -/
structure GithubRepoSchema where
  name : String
  full_name : String
  stargazers_count : Int
  watchers_count : Int
  forks_count : Int
deriving DecidableEq, Repr

/-- The errors a field check contributes to a pydantic ValidationError. -/
def errsOf {α : Type} (r : Except SchemaError α) : List SchemaError :=
  match r with
  | .error e => [e]
  | .ok _ => []

/-- All field errors of one `GithubRepoSchema(**data)` call, in field
declaration order; pydantic reports every failing field of the model. -/
def fieldErrors (o : JsonObj) : List SchemaError :=
  errsOf (checkStr o "name") ++ errsOf (checkStr o "full_name") ++
    errsOf (checkInt o "stargazers_count") ++ errsOf (checkInt o "watchers_count") ++
    errsOf (checkInt o "forks_count")

/-- The constructor call `GithubRepoSchema(**data)`: the model value when
every field checks out, otherwise the ValidationError listing every failing
field. Construction is all-or-nothing. -/
def GithubRepoSchema.validate (o : JsonObj) : Except (List SchemaError) GithubRepoSchema :=
  match checkStr o "name", checkStr o "full_name", checkInt o "stargazers_count",
      checkInt o "watchers_count", checkInt o "forks_count" with
  | .ok n, .ok fn, .ok sc, .ok wc, .ok fc => .ok ⟨n, fn, sc, wc, fc⟩
  | _, _, _, _, _ => .error (fieldErrors o)

/-- A rendering of `str(ValidationError)`: one line per failing field. The
exact text of pydantic's message is not load-bearing anywhere; each failing
field's name appears in it. -/
def renderErrors (es : List SchemaError) : String :=
  String.intercalate "; " (es.map fun e => e.field ++ ": " ++ e.reason)

/-- The `validate_data` task of the s3-upload flow: pydantic validation of
the flattened object, then the single business rule
`stargazers_count < min_stars` with message
`"Repository has fewer than {min_stars} stars"`. Returns the code's
`(is_valid, validation_message)` tuple. -/
def validate_data (o : JsonObj) (min_stars : Int) : Bool × String :=
  match GithubRepoSchema.validate o with
  | .error es => (false, renderErrors es)
  | .ok r =>
    if r.stargazers_count < min_stars then
      (false, "Repository has fewer than " ++ toString min_stars ++ " stars")
    else
      (true, "Validation successful")

/-- The `clean_data` task of both flows: the verbatim projection of the five
tracked keys out of the flattened object, in the dict-literal order of the
source. A missing key raises KeyError, which the task re-raises (`none`). -/
def clean_data (o : JsonObj) : Option JsonObj :=
  match lookupKey o "name", lookupKey o "full_name", lookupKey o "stargazers_count",
      lookupKey o "watchers_count", lookupKey o "forks_count" with
  | some n, some fn, some sc, some wc, some fc =>
    some [("name", n), ("full_name", fn), ("stargazers_count", sc),
      ("watchers_count", wc), ("forks_count", fc)]
  | _, _, _, _, _ => none

/-- Lookup of a key that the aggregation arithmetic needs as an integer. -/
def lookupInt (o : JsonObj) (k : String) : Option Int :=
  match lookupKey o k with
  | some (.int n) => some n
  | _ => none

/-- Python `round(x, 2)` on the exact quotient: round to the nearest
hundredth. -/
def round2 (q : ℚ) : ℚ := (round (q * 100) : ℤ) / 100

/-- The derived record of `perform_aggregation`, minus its wall-clock
`timestamp` (outside the pure core). `metrics` is flattened into its three
copies. -/
structure AggregateRecord where
  repository_name : JsonVal
  total_engagement : Int
  total_stars : Int
  total_watchers : Int
  total_forks : Int
  engagement_ratio : ℚ
deriving DecidableEq, Repr

/-- The `perform_aggregation` task of both flows, applied to the cleaned
object. With the three counts present as integers it computes the sums, the
copies and `round(stars / (watchers + 1), 2)`; `none` models the raised
exception otherwise (KeyError for a missing key, TypeError for a non-integer
count, ZeroDivisionError when `watchers_count + 1 = 0`). -/
def perform_aggregation (o : JsonObj) : Option AggregateRecord :=
  match lookupKey o "name", lookupInt o "stargazers_count",
      lookupInt o "watchers_count", lookupInt o "forks_count" with
  | some nm, some sc, some wc, some fc =>
    if wc + 1 = 0 then none
    else
      some ⟨nm, sc + wc + fc, sc, wc, fc, round2 ((sc : ℚ) / ((wc : ℚ) + 1))⟩
  | _, _, _, _ => none

/-- The pipeline stages of the spec's state machine, as the flow `main`
drives them. -/
inductive Stage where
  | fetched
  | flattened
  | rejected
  | validated
  | cleaned
  | savedCleaned
  | aggregated
  | savedAggregated
deriving DecidableEq, Repr

/-- The stage sequence one run of the s3-upload flow `main` performs on a
flattened object: validation, then early return on failure, else clean,
save, aggregate, save, each exactly once in source order. A stage whose
task raises ends the run at that point (the flow re-raises; no later stage
runs, and no rejection is recorded). -/
def main_trace (o : JsonObj) (min_stars : Int) : List Stage :=
  if (validate_data o min_stars).fst = false then
    [.fetched, .flattened, .rejected]
  else
    match clean_data o with
    | none => [.fetched, .flattened, .validated]
    | some c =>
      match perform_aggregation c with
      | none => [.fetched, .flattened, .validated, .cleaned, .savedCleaned]
      | some _ =>
        [.fetched, .flattened, .validated, .cleaned, .savedCleaned,
          .aggregated, .savedAggregated]

/-- The single-quote character, used to render Python's `str(KeyError)`. -/
def singleQuote : String := String.mk [Char.ofNat 39]

/-- Python `str(KeyError(k))`: the key in single quotes. -/
def keyErrorMsg (k : String) : String := singleQuote ++ k ++ singleQuote

/-- The dict-literal restructuring step of the cicd flow's `validate_data`:
it indexes the five keys in order before pydantic runs, so the first
missing key raises KeyError there. -/
def cicd_restructure (o : JsonObj) : Except String JsonObj :=
  match lookupKey o "name" with
  | none => .error (keyErrorMsg "name")
  | some n =>
    match lookupKey o "full_name" with
    | none => .error (keyErrorMsg "full_name")
    | some fn =>
      match lookupKey o "stargazers_count" with
      | none => .error (keyErrorMsg "stargazers_count")
      | some sc =>
        match lookupKey o "watchers_count" with
        | none => .error (keyErrorMsg "watchers_count")
        | some wc =>
          match lookupKey o "forks_count" with
          | none => .error (keyErrorMsg "forks_count")
          | some fc =>
            .ok [("name", n), ("full_name", fn), ("stargazers_count", sc),
              ("watchers_count", wc), ("forks_count", fc)]

/-- The `validate_data` task of the cicd flow. Its business-rule branch
(hard-coded threshold 10) raises `Exception(send_error_email(msg))`; the
email helper returns Python `None`, so the task's own generic handler
catches `Exception(None)` and returns `(False, "Validation error: None")`.
A KeyError from the restructuring step reaches the same generic handler,
which renders `"Validation error: " + str(e)`. A pydantic failure is caught
by the dedicated handler and rendered with the `"Schema validation
failed: "` prefix. -/
def cicd_validate_data (o : JsonObj) : Bool × String :=
  match cicd_restructure o with
  | .error msg => (false, "Validation error: " ++ msg)
  | .ok d =>
    match GithubRepoSchema.validate d with
    | .error es => (false, "Schema validation failed: " ++ renderErrors es)
    | .ok r =>
      if r.stargazers_count < 10 then
        (false, "Validation error: None")
      else
        (true, "Data validation successful")

/-- Scenario record of the spec: the `prefect` repository statistics, as
flattened (restricted to the five tracked keys; extra keys are inert). -/
def prefectFlattened : JsonObj :=
  [("name", .str "prefect"), ("full_name", .str "PrefectHQ/prefect"),
    ("stargazers_count", .int 18000), ("watchers_count", .int 500),
    ("forks_count", .int 1800)]

example : lookupKey prefectFlattened "name" = some (.str "prefect") := by decide

example :
    GithubRepoSchema.validate prefectFlattened =
      .ok ⟨"prefect", "PrefectHQ/prefect", 18000, 500, 1800⟩ := by rfl

example : validate_data prefectFlattened 10 = (true, "Validation successful") := by decide

example :
    validate_data prefectFlattened 20000 =
      (false, "Repository has fewer than 20000 stars") := by decide

example :
    perform_aggregation prefectFlattened =
      some ⟨.str "prefect", 20300, 18000, 500, 1800, 3593 / 100⟩ := by
  simp [perform_aggregation, lookupKey, lookupInt, prefectFlattened]
  norm_num [round2, round_eq]

/-! Helper lemmas about the pydantic field checks. -/

lemma checkStr_missing (o : JsonObj) (k : String) (h : lookupKey o k = none) :
    checkStr o k = Except.error ⟨k, "Field required"⟩ := by
  simp [checkStr, h]

lemma checkInt_missing (o : JsonObj) (k : String) (h : lookupKey o k = none) :
    checkInt o k = Except.error ⟨k, "Field required"⟩ := by
  simp [checkInt, h]

lemma checkStr_error_field (o : JsonObj) (k : String) (e : SchemaError)
    (h : checkStr o k = Except.error e) : e.field = k := by
  unfold checkStr at h
  rcases hl : lookupKey o k with _ | v
  · rw [hl] at h
    injection h with h2
    rw [← h2]
  · rw [hl] at h
    cases v with
    | str s => exact absurd h (by simp)
    | int n =>
      injection h with h2
      rw [← h2]
    | bool b =>
      injection h with h2
      rw [← h2]
    | null =>
      injection h with h2
      rw [← h2]

lemma checkInt_error_field (o : JsonObj) (k : String) (e : SchemaError)
    (h : checkInt o k = Except.error e) : e.field = k := by
  unfold checkInt at h
  rcases hl : lookupKey o k with _ | v
  · rw [hl] at h
    injection h with h2
    rw [← h2]
  · rw [hl] at h
    cases v with
    | int n => exact absurd h (by simp)
    | str s =>
      injection h with h2
      rw [← h2]
    | bool b =>
      injection h with h2
      rw [← h2]
    | null =>
      injection h with h2
      rw [← h2]

lemma checkStr_ok_lookup (o : JsonObj) (k s : String)
    (h : checkStr o k = Except.ok s) : lookupKey o k = some (JsonVal.str s) := by
  unfold checkStr at h
  rcases hl : lookupKey o k with _ | v
  · rw [hl] at h
    simp_all
  · rw [hl] at h
    cases v <;> simp_all

lemma checkInt_ok_lookup (o : JsonObj) (k : String) (n : Int)
    (h : checkInt o k = Except.ok n) : lookupKey o k = some (JsonVal.int n) := by
  unfold checkInt at h
  rcases hl : lookupKey o k with _ | v
  · rw [hl] at h
    simp_all
  · rw [hl] at h
    cases v <;> simp_all

lemma mem_fieldErrors (o : JsonObj) (e : SchemaError)
    (h : checkStr o "name" = Except.error e ∨ checkStr o "full_name" = Except.error e ∨
      checkInt o "stargazers_count" = Except.error e ∨
      checkInt o "watchers_count" = Except.error e ∨
      checkInt o "forks_count" = Except.error e) :
    e ∈ fieldErrors o := by
  rcases h with h | h | h | h | h <;> simp [fieldErrors, errsOf, h]

lemma validate_cases (o : JsonObj) :
    (∃ n fn sc wc fc,
        checkStr o "name" = Except.ok n ∧ checkStr o "full_name" = Except.ok fn ∧
        checkInt o "stargazers_count" = Except.ok sc ∧
        checkInt o "watchers_count" = Except.ok wc ∧
        checkInt o "forks_count" = Except.ok fc ∧
        GithubRepoSchema.validate o = Except.ok ⟨n, fn, sc, wc, fc⟩) ∨
      GithubRepoSchema.validate o = Except.error (fieldErrors o) := by
  rcases h1 : checkStr o "name" with e1 | n <;>
    rcases h2 : checkStr o "full_name" with e2 | fn <;>
      rcases h3 : checkInt o "stargazers_count" with e3 | sc <;>
        rcases h4 : checkInt o "watchers_count" with e4 | wc <;>
          rcases h5 : checkInt o "forks_count" with e5 | fc <;>
            first
              | (left
                 exact ⟨n, fn, sc, wc, fc, rfl, rfl, rfl, rfl, rfl, by
                   simp [GithubRepoSchema.validate, h1, h2, h3, h4, h5]⟩)
              | (right
                 simp [GithubRepoSchema.validate, h1, h2, h3, h4, h5])

lemma validate_error_mem (o : JsonObj) (e : SchemaError)
    (h : checkStr o "name" = Except.error e ∨ checkStr o "full_name" = Except.error e ∨
      checkInt o "stargazers_count" = Except.error e ∨
      checkInt o "watchers_count" = Except.error e ∨
      checkInt o "forks_count" = Except.error e) :
    ∃ es, GithubRepoSchema.validate o = Except.error es ∧ e ∈ es := by
  rcases validate_cases o with ⟨n, fn, sc, wc, fc, h1, h2, h3, h4, h5, hv⟩ | hv
  · rcases h with h | h | h | h | h <;> simp_all
  · exact ⟨fieldErrors o, hv, mem_fieldErrors o e h⟩

lemma validate_ok_checks (o : JsonObj) (r : GithubRepoSchema)
    (h : GithubRepoSchema.validate o = Except.ok r) :
    checkStr o "name" = Except.ok r.name ∧ checkStr o "full_name" = Except.ok r.full_name ∧
    checkInt o "stargazers_count" = Except.ok r.stargazers_count ∧
    checkInt o "watchers_count" = Except.ok r.watchers_count ∧
    checkInt o "forks_count" = Except.ok r.forks_count := by
  rcases validate_cases o with ⟨n, fn, sc, wc, fc, h1, h2, h3, h4, h5, hv⟩ | hv
  · rw [hv] at h
    obtain rfl : (⟨n, fn, sc, wc, fc⟩ : GithubRepoSchema) = r := by
      injection h
    exact ⟨h1, h2, h3, h4, h5⟩
  · rw [hv] at h
    simp_all

/-! Concrete records used by witnesses and counterexamples. -/

/-- A cleaned record with integer fields whose `watchers_count` is `-1`:
nothing in the schema forbids it, and it makes the aggregation's denominator
zero. -/
def negWatchersCleaned : JsonObj :=
  [("name", .str "edge"), ("full_name", .str "edge/edge"),
    ("stargazers_count", .int 10), ("watchers_count", .int (-1)),
    ("forks_count", .int 0)]

/-- A cleaned record with `watchers_count = -1` and different counts, for the
division-by-zero claim. -/
def zeroDenominatorCleaned : JsonObj :=
  [("name", .str "edge2"), ("full_name", .str "e/edge2"),
    ("stargazers_count", .int 7), ("watchers_count", .int (-1)),
    ("forks_count", .int 2)]

/-- A cleaned record with `watchers_count = 0` and ten stars: the spec's
Scenario D. -/
def zeroWatchersCleaned : JsonObj :=
  [("name", .str "small"), ("full_name", .str "s/small"),
    ("stargazers_count", .int 10), ("watchers_count", .int 0),
    ("forks_count", .int 3)]

/-- A flattened record whose `stargazers_count` is a negative integer. -/
def negativeStarsFlattened : JsonObj :=
  [("name", .str "neg"), ("full_name", .str "n/neg"),
    ("stargazers_count", .int (-1)), ("watchers_count", .int 5),
    ("forks_count", .int 2)]

/-- A schema-valid record that passes the business rule but whose
`watchers_count = -1` makes the aggregation raise. -/
def crashAggFlattened : JsonObj :=
  [("name", .str "crash"), ("full_name", .str "c/crash"),
    ("stargazers_count", .int 100), ("watchers_count", .int (-1)),
    ("forks_count", .int 0)]

/-- A schema-valid record with five stars, below the cicd flow's hard-coded
threshold of ten. -/
def lowStarsFlattened : JsonObj :=
  [("name", .str "tiny"), ("full_name", .str "t/tiny"),
    ("stargazers_count", .int 5), ("watchers_count", .int 1),
    ("forks_count", .int 0)]

/-! The claims. -/

/-- C1 (corrected): for every cleaned record with integer fields whose
`watchers_count` is not `-1`, `perform_aggregation` returns the aggregate
with `total_engagement = stargazers + watchers + forks`, the three verbatim
metric copies, and `engagement_ratio = round(stars / (watchers + 1), 2)`;
for the `prefect` record this gives `total_engagement = 20300` and
`engagement_ratio = 35.93`. (As stated over all integer fields the claim
fails: at `watchers_count = -1` the division raises, see the
counterexample.) -/
theorem spec_c1_aggregate_amended (o : JsonObj) (nm : JsonVal) (sc wc fc : Int)
    (hn : lookupKey o "name" = some nm)
    (hs : lookupInt o "stargazers_count" = some sc)
    (hw : lookupInt o "watchers_count" = some wc)
    (hf : lookupInt o "forks_count" = some fc)
    (hwc : wc ≠ -1) :
    perform_aggregation o =
      some ⟨nm, sc + wc + fc, sc, wc, fc, round2 ((sc : ℚ) / ((wc : ℚ) + 1))⟩ ∧
    perform_aggregation prefectFlattened =
      some ⟨JsonVal.str "prefect", 20300, 18000, 500, 1800, 3593 / 100⟩ := by
  constructor
  · have hne : wc + 1 ≠ 0 := by omega
    simp [perform_aggregation, hn, hs, hw, hf, hne]
  · simp [perform_aggregation, lookupKey, lookupInt, prefectFlattened]
    norm_num [round2, round_eq]

/-- C1 witness: the amended theorem applied to the `prefect` record. -/
theorem spec_c1_aggregate_witness :
    perform_aggregation prefectFlattened =
      some ⟨JsonVal.str "prefect", 20300, 18000, 500, 1800, 3593 / 100⟩ :=
  (spec_c1_aggregate_amended prefectFlattened (JsonVal.str "prefect") 18000 500 1800
    (by rfl) (by rfl) (by rfl) (by rfl) (by decide)).2

/-- C1 counterexample: a cleaned record with integer fields on which the
aggregation returns no record at all (the division raises), refuting the
claim's unrestricted quantification. -/
theorem spec_c1_aggregate_counterexample :
    perform_aggregation negWatchersCleaned = none := by rfl

/-- C2 (confirmed): on every flattened object, each of the five required
fields that is missing puts a `Field required` error naming it into the
ValidationError; every failing field check contributes an error naming one
of the five fields; and a `GithubRepoSchema` value is produced only when
all five keys are present with the declared types and the value copies
them — construction is all-or-nothing, never partial. -/
theorem spec_c2_schema_all_or_nothing (o : JsonObj) :
    (∀ k, k ∈ ["name", "full_name", "stargazers_count", "watchers_count",
        "forks_count"] →
      lookupKey o k = none →
      ∃ es, GithubRepoSchema.validate o = Except.error es ∧
        SchemaError.mk k "Field required" ∈ es) ∧
    (∀ e : SchemaError,
      checkStr o "name" = Except.error e ∨ checkStr o "full_name" = Except.error e ∨
        checkInt o "stargazers_count" = Except.error e ∨
        checkInt o "watchers_count" = Except.error e ∨
        checkInt o "forks_count" = Except.error e →
      e.field ∈ ["name", "full_name", "stargazers_count", "watchers_count",
        "forks_count"] ∧
      ∃ es, GithubRepoSchema.validate o = Except.error es ∧ e ∈ es) ∧
    (∀ r, GithubRepoSchema.validate o = Except.ok r →
      lookupKey o "name" = some (JsonVal.str r.name) ∧
      lookupKey o "full_name" = some (JsonVal.str r.full_name) ∧
      lookupKey o "stargazers_count" = some (JsonVal.int r.stargazers_count) ∧
      lookupKey o "watchers_count" = some (JsonVal.int r.watchers_count) ∧
      lookupKey o "forks_count" = some (JsonVal.int r.forks_count)) := by
  refine ⟨?_, ?_, ?_⟩
  · intro k hk hnone
    have hmem : k = "name" ∨ k = "full_name" ∨ k = "stargazers_count" ∨
        k = "watchers_count" ∨ k = "forks_count" := by simpa using hk
    rcases hmem with rfl | rfl | rfl | rfl | rfl
    · exact validate_error_mem o _ (Or.inl (checkStr_missing o _ hnone))
    · exact validate_error_mem o _ (Or.inr (Or.inl (checkStr_missing o _ hnone)))
    · exact validate_error_mem o _
        (Or.inr (Or.inr (Or.inl (checkInt_missing o _ hnone))))
    · exact validate_error_mem o _
        (Or.inr (Or.inr (Or.inr (Or.inl (checkInt_missing o _ hnone)))))
    · exact validate_error_mem o _
        (Or.inr (Or.inr (Or.inr (Or.inr (checkInt_missing o _ hnone)))))
  · intro e he
    refine ⟨?_, validate_error_mem o e he⟩
    rcases he with h | h | h | h | h
    · simp [checkStr_error_field o _ e h]
    · simp [checkStr_error_field o _ e h]
    · simp [checkInt_error_field o _ e h]
    · simp [checkInt_error_field o _ e h]
    · simp [checkInt_error_field o _ e h]
  · intro r h
    obtain ⟨h1, h2, h3, h4, h5⟩ := validate_ok_checks o r h
    exact ⟨checkStr_ok_lookup o _ _ h1, checkStr_ok_lookup o _ _ h2,
      checkInt_ok_lookup o _ _ h3, checkInt_ok_lookup o _ _ h4,
      checkInt_ok_lookup o _ _ h5⟩

/-- C3 (confirmed): given a schema-valid record, the s3-upload flow's
`validate_data` rejects exactly when `stargazers_count < min_stars`, with
the rule message, and accepts exactly when `stargazers_count >= min_stars`. -/
theorem spec_c3_min_stars_rule (o : JsonObj) (r : GithubRepoSchema) (min_stars : Int)
    (h : GithubRepoSchema.validate o = Except.ok r) :
    (r.stargazers_count < min_stars →
      validate_data o min_stars =
        (false, "Repository has fewer than " ++ toString min_stars ++ " stars")) ∧
    (min_stars ≤ r.stargazers_count →
      validate_data o min_stars = (true, "Validation successful")) ∧
    ((validate_data o min_stars).fst = false ↔ r.stargazers_count < min_stars) := by
  refine ⟨?_, ?_, ?_⟩
  · intro hlt
    simp [validate_data, h, hlt]
  · intro hge
    have hnlt : ¬ r.stargazers_count < min_stars := not_lt.mpr hge
    simp [validate_data, h, hnlt]
  · by_cases hlt : r.stargazers_count < min_stars <;> simp [validate_data, h, hlt]

/-- C3 witness: the `prefect` record passes at threshold 10 and is rejected
at threshold 20000, by the rule theorem. -/
theorem spec_c3_min_stars_witness :
    validate_data prefectFlattened 10 = (true, "Validation successful") ∧
    validate_data prefectFlattened 20000 =
      (false, "Repository has fewer than 20000 stars") := by
  constructor
  · exact (spec_c3_min_stars_rule prefectFlattened
      ⟨"prefect", "PrefectHQ/prefect", 18000, 500, 1800⟩ 10 (by rfl)).2.1 (by decide)
  · exact (spec_c3_min_stars_rule prefectFlattened
      ⟨"prefect", "PrefectHQ/prefect", 18000, 500, 1800⟩ 20000 (by rfl)).1 (by decide)

/-- C4 (corrected): on every cleaned record with integer fields whose
`watchers_count` is non-negative the denominator `watchers_count + 1` is
nonzero, the aggregation succeeds, and its ratio is
`round(stars / (watchers + 1), 2)`; at `watchers_count = 0` the denominator
is `1`. (The unrestricted claim fails: the schema admits
`watchers_count = -1`, where the division raises, see the
counterexample.) -/
theorem spec_c4_denominator_amended (o : JsonObj) (nm : JsonVal) (sc wc fc : Int)
    (hn : lookupKey o "name" = some nm)
    (hs : lookupInt o "stargazers_count" = some sc)
    (hw : lookupInt o "watchers_count" = some wc)
    (hf : lookupInt o "forks_count" = some fc)
    (hpos : 0 ≤ wc) :
    wc + 1 ≠ 0 ∧
    ∃ a, perform_aggregation o = some a ∧
      a.engagement_ratio = round2 ((sc : ℚ) / ((wc : ℚ) + 1)) ∧
      (wc = 0 → a.engagement_ratio = round2 ((sc : ℚ) / 1)) := by
  have hne : wc + 1 ≠ 0 := by omega
  refine ⟨hne,
    ⟨nm, sc + wc + fc, sc, wc, fc, round2 ((sc : ℚ) / ((wc : ℚ) + 1))⟩, ?_, rfl, ?_⟩
  · simp [perform_aggregation, hn, hs, hw, hf, hne]
  · rintro rfl
    norm_num

/-- C4 witness: Scenario D of the spec, `watchers_count = 0` and ten stars
give ratio `10`, through the amended theorem. -/
theorem spec_c4_denominator_witness :
    ∃ a, perform_aggregation zeroWatchersCleaned = some a ∧
      a.engagement_ratio = 10 := by
  obtain ⟨-, a, ha, hr, -⟩ :=
    spec_c4_denominator_amended zeroWatchersCleaned (JsonVal.str "small") 10 0 3
      (by rfl) (by rfl) (by rfl) (by rfl) (by decide)
  refine ⟨a, ha, ?_⟩
  rw [hr]
  norm_num [round2, round_eq]

/-- C4 counterexample: a cleaned record with `watchers_count = -1`; the
denominator is zero and the aggregation step raises ZeroDivisionError
(returns no record), so the step does divide by zero for this
CleanedRecord. -/
theorem spec_c4_denominator_counterexample :
    lookupInt zeroDenominatorCleaned "watchers_count" = some (-1) ∧
    (-1 : Int) + 1 = 0 ∧
    perform_aggregation zeroDenominatorCleaned = none := by
  exact ⟨by rfl, by decide, by rfl⟩

/-- C5 (confirmed): for every flattened object that pydantic validates,
`clean_data` succeeds and returns the verbatim projection: the cleaned
record carries exactly the validated five field values, agrees with the
input on the five tracked keys, and cleaning an already-cleaned record
returns it unchanged (idempotence). -/
theorem spec_c5_clean_projection (o : JsonObj) (r : GithubRepoSchema)
    (h : GithubRepoSchema.validate o = Except.ok r) :
    ∃ c, clean_data o = some c ∧
      lookupKey c "name" = some (JsonVal.str r.name) ∧
      lookupKey c "full_name" = some (JsonVal.str r.full_name) ∧
      lookupKey c "stargazers_count" = some (JsonVal.int r.stargazers_count) ∧
      lookupKey c "watchers_count" = some (JsonVal.int r.watchers_count) ∧
      lookupKey c "forks_count" = some (JsonVal.int r.forks_count) ∧
      (∀ k, k ∈ ["name", "full_name", "stargazers_count", "watchers_count",
          "forks_count"] → lookupKey c k = lookupKey o k) ∧
      clean_data c = some c := by
  obtain ⟨h1, h2, h3, h4, h5⟩ := validate_ok_checks o r h
  have l1 := checkStr_ok_lookup o _ _ h1
  have l2 := checkStr_ok_lookup o _ _ h2
  have l3 := checkInt_ok_lookup o _ _ h3
  have l4 := checkInt_ok_lookup o _ _ h4
  have l5 := checkInt_ok_lookup o _ _ h5
  refine ⟨[("name", JsonVal.str r.name), ("full_name", JsonVal.str r.full_name),
    ("stargazers_count", JsonVal.int r.stargazers_count),
    ("watchers_count", JsonVal.int r.watchers_count),
    ("forks_count", JsonVal.int r.forks_count)], ?_, ?_, ?_, ?_, ?_, ?_, ?_, ?_⟩
  · simp [clean_data, l1, l2, l3, l4, l5]
  · simp [lookupKey]
  · simp [lookupKey]
  · simp [lookupKey]
  · simp [lookupKey]
  · simp [lookupKey]
  · intro k hk
    have hmem : k = "name" ∨ k = "full_name" ∨ k = "stargazers_count" ∨
        k = "watchers_count" ∨ k = "forks_count" := by simpa using hk
    rcases hmem with rfl | rfl | rfl | rfl | rfl <;>
      simp [lookupKey, l1, l2, l3, l4, l5]
  · simp [clean_data, lookupKey]

/-- C5 witness: the clean projection applied to the validated `prefect`
record, returning a fixed point of `clean_data`. -/
theorem spec_c5_clean_witness :
    ∃ c, clean_data prefectFlattened = some c ∧ clean_data c = some c := by
  obtain ⟨c, hc, -, -, -, -, -, -, hidem⟩ :=
    spec_c5_clean_projection prefectFlattened
      ⟨"prefect", "PrefectHQ/prefect", 18000, 500, 1800⟩ (by rfl)
  exact ⟨c, hc, hidem⟩

/-- C6 (corrected): a `GithubRepoSchema` value with the given fields exists
exactly when the five keys are present with the declared types, where the
three counts may be any integers: validation returning that value is
equivalent to the five typed lookups, so a value never exists without all
five typed fields (necessity), and typed presence always constructs it
(sufficiency) — the schema declares plain `int` with no lower bound, so
negative counts pass validation. (The claim that a negative count fails
with a SchemaError is refuted by the counterexample.) -/
theorem spec_c6_schema_types_amended (o : JsonObj) (n fn : String) (sc wc fc : Int) :
    GithubRepoSchema.validate o = Except.ok ⟨n, fn, sc, wc, fc⟩ ↔
      (lookupKey o "name" = some (JsonVal.str n) ∧
        lookupKey o "full_name" = some (JsonVal.str fn) ∧
        lookupKey o "stargazers_count" = some (JsonVal.int sc) ∧
        lookupKey o "watchers_count" = some (JsonVal.int wc) ∧
        lookupKey o "forks_count" = some (JsonVal.int fc)) := by
  constructor
  · intro h
    obtain ⟨h1, h2, h3, h4, h5⟩ := validate_ok_checks o ⟨n, fn, sc, wc, fc⟩ h
    exact ⟨checkStr_ok_lookup o _ _ h1, checkStr_ok_lookup o _ _ h2,
      checkInt_ok_lookup o _ _ h3, checkInt_ok_lookup o _ _ h4,
      checkInt_ok_lookup o _ _ h5⟩
  · rintro ⟨h1, h2, h3, h4, h5⟩
    simp [GithubRepoSchema.validate, checkStr, checkInt, h1, h2, h3, h4, h5]

/-- C6 witness: the amended equivalence at a record with a negative star
count, both as construction and as the typed lookups it forces. -/
theorem spec_c6_schema_types_witness :
    GithubRepoSchema.validate
      [("name", JsonVal.str "w"), ("full_name", JsonVal.str "w/w"),
        ("stargazers_count", JsonVal.int (-7)), ("watchers_count", JsonVal.int 0),
        ("forks_count", JsonVal.int 1)] =
      Except.ok ⟨"w", "w/w", -7, 0, 1⟩ :=
  (spec_c6_schema_types_amended
    [("name", JsonVal.str "w"), ("full_name", JsonVal.str "w/w"),
      ("stargazers_count", JsonVal.int (-7)), ("watchers_count", JsonVal.int 0),
      ("forks_count", JsonVal.int 1)] "w" "w/w" (-7) 0 1).mpr
    ⟨by rfl, by rfl, by rfl, by rfl, by rfl⟩

/-- C6 counterexample: a record whose `stargazers_count` is the negative
integer `-1` passes schema validation and constructs a `GithubRepoSchema`,
refuting the claim that validation fails for that field. -/
theorem spec_c6_schema_types_counterexample :
    GithubRepoSchema.validate negativeStarsFlattened =
      Except.ok ⟨"neg", "n/neg", -1, 5, 2⟩ := by rfl

/-- C7 (corrected): for the `prefect` record with `min_stars = 20000` the
s3-upload flow rejects with reason text exactly
`"Repository has fewer than 20000 stars"` (the cicd flow has its threshold
hard-coded to 10 and accepts the record). The reason text of the spec's
Scenario B appears nowhere in the code, see the counterexample. -/
theorem spec_c7_rejection_message_amended :
    validate_data prefectFlattened 20000 =
      (false, "Repository has fewer than 20000 stars") ∧
    cicd_validate_data prefectFlattened = (true, "Data validation successful") := by
  exact ⟨by rfl, by rfl⟩

/-- C7 counterexample: the rejection's reason text is not the exact string
the claim states. -/
theorem spec_c7_rejection_message_counterexample :
    (validate_data prefectFlattened 20000).snd ≠
      "business rule: stargazers_count(18000) < min_stars(20000)" := by decide

/-- Every run of the s3-upload flow produces one of exactly four stage
sequences: rejected early, or aborted at cleaning, or aborted at
aggregation, or the full valid path. -/
lemma main_trace_cases (o : JsonObj) (min_stars : Int) :
    main_trace o min_stars = [Stage.fetched, Stage.flattened, Stage.rejected] ∨
    main_trace o min_stars = [Stage.fetched, Stage.flattened, Stage.validated] ∨
    main_trace o min_stars =
      [Stage.fetched, Stage.flattened, Stage.validated, Stage.cleaned,
        Stage.savedCleaned] ∨
    main_trace o min_stars =
      [Stage.fetched, Stage.flattened, Stage.validated, Stage.cleaned,
        Stage.savedCleaned, Stage.aggregated, Stage.savedAggregated] := by
  unfold main_trace
  by_cases hb : (validate_data o min_stars).fst = false
  · rw [if_pos hb]
    left
    rfl
  · rw [if_neg hb]
    rcases hc : clean_data o with _ | c
    · right
      left
      rfl
    · rcases ha : perform_aggregation c with _ | a
      · right
        right
        left
        simp [ha]
      · right
        right
        right
        simp [ha]

/-- C8 (confirmed): a rejection is terminal: when validation fails the run
is exactly fetch, flatten, reject, and no cleaning, aggregation or
persistence stage ever appears; when validation passes and the downstream
tasks succeed, every stage appears exactly once in source order; and in
every run no stage ever appears twice (no state is revisited). -/
theorem spec_c8_pipeline_stages (o : JsonObj) (min_stars : Int) :
    ((validate_data o min_stars).fst = false →
      main_trace o min_stars = [Stage.fetched, Stage.flattened, Stage.rejected] ∧
      Stage.cleaned ∉ main_trace o min_stars ∧
      Stage.savedCleaned ∉ main_trace o min_stars ∧
      Stage.aggregated ∉ main_trace o min_stars ∧
      Stage.savedAggregated ∉ main_trace o min_stars) ∧
    ((validate_data o min_stars).fst = true →
      Stage.rejected ∉ main_trace o min_stars ∧
      ∀ c a, clean_data o = some c → perform_aggregation c = some a →
        main_trace o min_stars =
          [Stage.fetched, Stage.flattened, Stage.validated, Stage.cleaned,
            Stage.savedCleaned, Stage.aggregated, Stage.savedAggregated]) ∧
    (∀ s : Stage, (main_trace o min_stars).count s ≤ 1) := by
  refine ⟨?_, ?_, ?_⟩
  · intro hb
    have ht : main_trace o min_stars =
        [Stage.fetched, Stage.flattened, Stage.rejected] := by
      simp [main_trace, hb]
    rw [ht]
    exact ⟨rfl, by simp, by simp, by simp, by simp⟩
  · intro hb
    constructor
    · rcases hc : clean_data o with _ | c
      · simp [main_trace, hb, hc]
      · rcases ha : perform_aggregation c with _ | a <;>
          simp [main_trace, hb, hc, ha]
    · intro c a hc ha
      simp [main_trace, hb, hc, ha]
  · intro s
    rcases main_trace_cases o min_stars with h | h | h | h <;>
      rw [h] <;> cases s <;> decide

/-- C8 witness: the rejected run at threshold 20000 and the full valid run
at threshold 10 of the `prefect` record, through the stage theorem. -/
theorem spec_c8_pipeline_stages_witness :
    main_trace prefectFlattened 20000 =
      [Stage.fetched, Stage.flattened, Stage.rejected] ∧
    main_trace prefectFlattened 10 =
      [Stage.fetched, Stage.flattened, Stage.validated, Stage.cleaned,
        Stage.savedCleaned, Stage.aggregated, Stage.savedAggregated] := by
  constructor
  · exact ((spec_c8_pipeline_stages prefectFlattened 20000).1 (by rfl)).1
  · exact ((spec_c8_pipeline_stages prefectFlattened 10).2.1 (by rfl)).2
      prefectFlattened
      ⟨JsonVal.str "prefect", 20300, 18000, 500, 1800, 3593 / 100⟩
      (by rfl)
      (by
        simp [perform_aggregation, lookupKey, lookupInt, prefectFlattened]
        norm_num [round2, round_eq])

/-- C9 (corrected): a failure the code itself labels unexpected behaves
differently by phase. During cleaning and aggregation the tasks re-raise,
so the flow aborts with no rejection recorded and the error propagates to
the caller; but during validation the generic handler catches any
non-pydantic exception and folds it into the ordinary `(False, message)`
outcome — e.g. a KeyError in the cicd restructuring step returns
`(False, "Validation error: " ++ str(KeyError))`, the same shape as an
expected rejection, refuting the claim's "never folds". -/
theorem spec_c9_propagation_amended :
    (∀ (o : JsonObj) (min_stars : Int) (c : JsonObj),
      (validate_data o min_stars).fst = true → clean_data o = some c →
      perform_aggregation c = none →
      main_trace o min_stars =
        [Stage.fetched, Stage.flattened, Stage.validated, Stage.cleaned,
          Stage.savedCleaned] ∧
      Stage.rejected ∉ main_trace o min_stars ∧
      Stage.savedAggregated ∉ main_trace o min_stars) ∧
    (∀ o : JsonObj, lookupKey o "name" = none →
      cicd_validate_data o = (false, "Validation error: " ++ keyErrorMsg "name")) := by
  constructor
  · intro o min_stars c hb hc ha
    have ht : main_trace o min_stars =
        [Stage.fetched, Stage.flattened, Stage.validated, Stage.cleaned,
          Stage.savedCleaned] := by
      simp [main_trace, hb, hc, ha]
    rw [ht]
    exact ⟨rfl, by simp, by simp⟩
  · intro o hn
    simp [cicd_validate_data, cicd_restructure, hn]

/-- C9 witness: a schema-valid record whose aggregation raises leaves the
flow aborted after the save of the cleaned data, with no rejection; and an
object without the `name` key gets the folded validation message. -/
theorem spec_c9_propagation_witness :
    main_trace crashAggFlattened 10 =
      [Stage.fetched, Stage.flattened, Stage.validated, Stage.cleaned,
        Stage.savedCleaned] ∧
    cicd_validate_data [("x", JsonVal.int 0)] =
      (false, "Validation error: " ++ keyErrorMsg "name") := by
  constructor
  · exact (spec_c9_propagation_amended.1 crashAggFlattened 10 crashAggFlattened
      (by rfl) (by rfl) (by rfl)).1
  · exact spec_c9_propagation_amended.2 [("x", JsonVal.int 0)] (by rfl)

/-- C9 counterexample: on the empty flattened object, the cicd flow's
validation hits a KeyError — a failure its own code comments call
unexpected, neither a pydantic schema error nor a business-rule check — and
returns it as the ordinary `(False, message)` rejected outcome instead of
raising a distinct error value. -/
theorem spec_c9_propagation_counterexample :
    cicd_validate_data [] = (false, "Validation error: " ++ keyErrorMsg "name") := by
  rfl

/-- C10 (confirmed): in the cicd flow, every record that passes schema
validation but violates the hard-coded ten-star rule comes back as exactly
`(False, "Validation error: None")`: the raised
`Exception(send_error_email(...))` wraps the email helper's `None` return,
so neither the rule name nor the threshold nor the actual count reaches the
returned message. -/
theorem spec_c10_cicd_rule_fold (o d : JsonObj) (r : GithubRepoSchema)
    (hres : cicd_restructure o = Except.ok d)
    (hval : GithubRepoSchema.validate d = Except.ok r)
    (hlt : r.stargazers_count < 10) :
    cicd_validate_data o = (false, "Validation error: None") := by
  simp [cicd_validate_data, hres, hval, hlt]

/-- C10 witness: the five-star record is folded to the constant message. -/
theorem spec_c10_cicd_rule_witness :
    cicd_validate_data lowStarsFlattened = (false, "Validation error: None") :=
  spec_c10_cicd_rule_fold lowStarsFlattened lowStarsFlattened
    ⟨"tiny", "t/tiny", 5, 1, 0⟩ (by rfl) (by rfl) (by decide)
